import Mathlib

/-!
Verification of the IPU provisioning core (`isoCluster.py`) of
cluster-deployment-automation: a shallow embedding of the provisioning
orchestrator (`IPUIsoBoot`), the image-source classification
(`is_http_url`), the Redfish boot stage (`_redfish_boot_ipu`), the
network-port preparation (`configure_iso_network_port`), the DHCP lease
management (`render_dhcpd_conf` / `configure_dhcpd`) and the connectivity
establishment (`enable_acc_connectivity`).

External collaborators (the `host` command-execution module, the
`dhcpConfig` configuration file parser/writer, `urllib.parse`, `os.path`)
are modelled at their interfaces; definitions taken from the spec rather
than from code under `src/` carry a doc comment saying so.

Effects are modelled by an explicit environment (`Env`) supplying each
collaborator's outcome, an event trace (`List Event`) recording the calls
the code issues in order, an `Outcome` (normal return, `sys.exit`, raised
exception, failed `assert`), and an explicit DHCP file-system state (`FS`).
-/

/-- Model of `urllib.parse.urlparse`, restricted to the two fields the code
reads (`scheme` and `netloc`).  Faithful to CPython `urlsplit`: the scheme is
the (lower-cased) part before the first `:` when it starts with an ASCII
letter and uses only scheme characters; the netloc is the part after a
leading `//` up to the first `/`, `?` or `#`; a netloc with unbalanced
square brackets raises `ValueError` (modelled as `Except.error`). -/
structure UrlSplitResult where
  scheme : String
  netloc : String
deriving Repr, DecidableEq

def isSchemeChar (c : Char) : Bool :=
  c.isAlpha || c.isDigit || c == '+' || c == '-' || c == '.'

def splitScheme (url : String) : String × String :=
  match url.toList.findIdx? (fun c => c == ':') with
  | some i =>
    if 0 < i then
      let pre := url.toList.take i
      if (pre.headD ' ').isAlpha && pre.all isSchemeChar then
        (String.mk (pre.map Char.toLower), String.mk (url.toList.drop (i + 1)))
      else ("", url)
    else ("", url)
  | none => ("", url)

def urlparse (url : String) : Except Unit UrlSplitResult :=
  let sr := splitScheme url
  let restL := sr.2.toList
  if restL.take 2 = ['/', '/'] then
    let netloc := (restL.drop 2).takeWhile (fun c => !(c == '/' || c == '?' || c == '#'))
    if (netloc.contains '[' && !(netloc.contains ']')) ||
       (netloc.contains ']' && !(netloc.contains '[')) then
      Except.error ()
    else
      Except.ok ⟨sr.1, String.mk netloc⟩
  else
    Except.ok ⟨sr.1, ""⟩

/-- `is_http_url` from `src/isoCluster.py`: true when the parse succeeds and
both `scheme` and `netloc` are truthy (non-empty); a `ValueError` yields
`False`. -/
def is_http_url (url : String) : Bool :=
  match urlparse url with
  | Except.ok result => result.scheme != "" && result.netloc != ""
  | Except.error _ => false

/-- The image-reference classification of `_redfish_boot_ipu` (line 130):
the remote branch is taken exactly when `is_http_url` holds; every other
string goes to the local-path branch. -/
inductive ImageRef
  | remote (url : String)
  | localPath (p : String)
deriving Repr, DecidableEq

def classifyImage (iso : String) : ImageRef :=
  if is_http_url iso then ImageRef.remote iso else ImageRef.localPath iso

/-- `NodeConfig` from `clustersConfig` (interface only: the fields
`isoCluster.py` reads).  `ip` is `Optional[str]` in the source. -/
structure NodeConfig where
  name : String
  mac : String
  ip : Option String
  bmc : String
  bmc_user : String
  bmc_password : String
deriving Repr, DecidableEq

/-- `ClustersConfig` interface: the fields `isoCluster.py` reads. -/
structure ClustersConfig where
  network_api_port : String
  external_port : String
deriving Repr, DecidableEq

/-- Python `str()` applied to an `Optional[str]` (as in
`str(node.ip)`): `str(None)` is the string `None`. -/
def pyStr : Option String → String
  | some s => s
  | none => "None"

/-- One observable call issued by the provisioning code, in program order. -/
inductive Event
  | run (cmd : String)
  | runOrDie (cmd : String)
  | runRemote (h : String) (cmd : String)
  | bootAttempt (iso : String)
  | sleep (seconds : Nat)
  | sshConnect (h : String) (user : String) (password : String)
  | ping (h : String)
  | prepareExternalPort
  | httpStart (dir : String) (port : Nat)
  | httpStop
  | logError (msg : String)
deriving Repr, DecidableEq

/-- How a stage terminates: normal return, `sys.exit(code)`, an exception
raised by a collaborator (e.g. retry exhaustion), or a failed `assert`. -/
inductive Outcome
  | ok
  | fatal (code : Int)
  | raisedError
  | assertionError
deriving Repr, DecidableEq

/-- The behaviour of every collaborator the provisioning code calls:
return codes of the shell commands, the per-attempt result of the Redfish
boot call, local-file existence, the provisioning host IP, the port the
ephemeral HTTP server binds, per-host SSH session success, and the
reachability of the ACC for the ping probe. -/
structure Env where
  stopDhcpdRc : Int
  restartDhcpdRc : Int
  restartDhcpdErr : String
  flushRc : Int
  addRc : Int
  bootOk : Nat → Bool
  isoExists : String → Bool
  portToIp : String
  httpPort : Nat
  sshOk : String → Bool
  accReachable : Bool

/-- Modelled from the spec: the DHCP configuration file format of the
`dhcpConfig` module (not under `src/`) is line-oriented; the first line
carries the tool's ownership marker (`CDA_TAG`) when the file is managed by
the tool, and host reservations are (hostname, hardware-address,
fixed-address) entries. -/
structure DhcpHost where
  hostname : String
  hardware_ethernet : String
  fixed_address : String
deriving Repr, DecidableEq

inductive ConfLine
  | tag
  | hostLine (h : DhcpHost)
  | other (s : String)
deriving Repr, DecidableEq

/-- The files `render_dhcpd_conf` touches: the DHCP configuration file at
`DHCPD_CONFIG_PATH` and the backup at `DHCPD_CONFIG_BACKUP_PATH`
(`none` = the file does not exist). -/
structure FS where
  conf : Option (List ConfLine)
  backup : Option (List ConfLine)
deriving Repr, DecidableEq

/-- The source's first-line ownership check (`CDA_TAG not in line` on the
first line read): in the line model, the first line carries the marker
exactly when it is the `tag` line. -/
def lineHasTag : Option ConfLine → Bool
  | some ConfLine.tag => true
  | _ => false

structure DhcpConfig where
  hosts : List DhcpHost
deriving Repr, DecidableEq

/-- Modelled from the spec: `dhcp_config_from_file` of the `dhcpConfig`
module parses the (tool-owned, possibly empty) configuration into its host
reservations. -/
def dhcp_config_from_file (lines : List ConfLine) : DhcpConfig :=
  ⟨lines.filterMap fun l => match l with
    | ConfLine.hostLine h => some h
    | _ => none⟩

/-- Modelled from the spec: `add_host` appends a host reservation for the
given (hostname, hardware-address, fixed-address) triple. -/
def DhcpConfig.add_host (c : DhcpConfig) (hostname : String)
    (hardware_ethernet : String) (fixed_address : String) : DhcpConfig :=
  ⟨c.hosts ++ [⟨hostname, hardware_ethernet, fixed_address⟩]⟩

/-- Modelled from the spec: `write_to_file` writes the configuration back
with the ownership marker as the first line. -/
def DhcpConfig.write_to_file (c : DhcpConfig) : List ConfLine :=
  ConfLine.tag :: c.hosts.map ConfLine.hostLine

/-- `render_dhcpd_conf` from `src/isoCluster.py` (lines 28-48) as a
transformer of the DHCP file-system state: if the configuration file exists
and its first line lacks the ownership marker, move it to the backup path
(`shutil.move` replaces any previous backup); `touch` the file; parse it,
append the host reservation, and write it back. -/
def render_dhcpd_conf (mac : String) (ip : String) (name : String) (fs : FS) : FS :=
  let fs1 : FS :=
    match fs.conf with
    | some lines =>
      if lineHasTag lines.head? then fs
      else ⟨none, some lines⟩
    | none => fs
  let fs2 : FS := ⟨some (fs1.conf.getD []), fs1.backup⟩
  let dhcp_config := dhcp_config_from_file (fs2.conf.getD [])
  let dhcp_config := dhcp_config.add_host name mac ip
  ⟨some dhcp_config.write_to_file, fs2.backup⟩

/-- `configure_dhcpd` from `src/isoCluster.py` (lines 51-59): render the
configuration, then `systemctl restart dhcpd`; a non-zero return code is
logged with the captured stderr and the process exits with `-1`. -/
def configure_dhcpd (env : Env) (node : NodeConfig) (fs : FS) :
    Outcome × FS × List Event :=
  let fs1 := render_dhcpd_conf node.mac (pyStr node.ip) node.name fs
  let t := [Event.run "systemctl restart dhcpd"]
  if env.restartDhcpdRc != 0 then
    (Outcome.fatal (-1), fs1,
      t ++ [Event.logError ("Failed to restart dhcpd with err: " ++ env.restartDhcpdErr)])
  else
    (Outcome.ok, fs1, t)

/-- Modelled from the spec: `get_subnet_range` of the `dhcpConfig` module
(not under `src/`) computes, for the /24 mask it is called with, the subnet
range whose starting value is the address with the last octet set to the
network's starting host value (`192.168.1.50` ↦ `192.168.1.0`). -/
def splitCharsOnDot : List Char → List (List Char)
  | [] => [[]]
  | c :: cs =>
    let r := splitCharsOnDot cs
    if c == '.' then [] :: r
    else
      match r with
      | [] => [[c]]
      | g :: gs => (c :: g) :: gs

def joinWithDots : List String → String
  | [] => ""
  | [s] => s
  | s :: rest => s ++ "." ++ joinWithDots rest

def get_subnet_range (ip : String) (mask : String) : String × String :=
  let base := joinWithDots (((splitCharsOnDot ip.toList).map String.mk).take 3)
  (base ++ ".0", base ++ ".255")

/-- `configure_iso_network_port` from `src/isoCluster.py` (lines 62-67):
flush the cluster port, then assign the computed start address with a /24
prefix; both via `run_or_die`, which exits fatally on a non-zero return
code. -/
def configure_iso_network_port (env : Env) (api_port : String) (node_ip : String) :
    Outcome × List Event :=
  let start := (get_subnet_range node_ip "255.255.255.0").1
  let t := [Event.runOrDie ("ip addr flush dev " ++ api_port)]
  if env.flushRc != 0 then (Outcome.fatal (-1), t)
  else
    let t := t ++ [Event.runOrDie ("ip addr add " ++ start ++ "/24 dev " ++ api_port)]
    if env.addRc != 0 then (Outcome.fatal (-1), t)
    else (Outcome.ok, t)

/-- `enable_acc_connectivity` from `src/isoCluster.py` (lines 70-100):
SSH to the IMC, reboot it, sleep 30 s, ping the ACC address once (the
bounded-retry loop around connectivity re-establishment is present in the
source only as commented-out code, so the probe's result is not inspected),
then open an SSH session to the ACC with the fixed credentials
`root`/`redhat`.  SSH session failures are modelled from the spec as raised
errors (the `host` module is not under `src/`). -/
def enable_acc_connectivity (env : Env) (node : NodeConfig) : Outcome × List Event :=
  let t := [Event.sshConnect node.bmc node.bmc_user node.bmc_password]
  if !(env.sshOk node.bmc) then (Outcome.raisedError, t)
  else
    let t := t ++ [Event.runRemote node.bmc "systemctl reboot", Event.sleep 30]
    let accAddr := pyStr node.ip
    let t := t ++ [Event.ping accAddr]
    let t := t ++ [Event.sshConnect accAddr "root" "redhat"]
    if !(env.sshOk accAddr) then (Outcome.raisedError, t)
    else (Outcome.ok, t)

/-- Python `os.path.split`: split at the last `/`; the head keeps no
trailing slashes unless it is all slashes. -/
def pySplitPath (p : String) : String × String :=
  let cs := p.toList
  match (cs.reverse.findIdx? (fun c => c == '/')) with
  | none => ("", p)
  | some k =>
    let n := cs.length - k
    let head := cs.take n
    let tail := cs.drop n
    let head := if head.all (fun c => c == '/') then head
                else (head.reverse.dropWhile (fun c => c == '/')).reverse
    (String.mk head, String.mk tail)

/-- `os.path.dirname`. -/
def dirname (p : String) : String := (pySplitPath p).1

/-- `os.path.basename`. -/
def basename (p : String) : String := (pySplitPath p).2

/-- Modelled from the spec: `host.BMC.boot_iso_redfish` (the `host` module
is not under `src/`) requests a boot-from-image, retrying up to `fuel`
attempts with `retry_delay`-second spacing between attempts, and surfaces
exhaustion to the caller as a fatal (raised) failure.  `i` numbers the
attempts; `env.bootOk i` is the collaborator's answer to attempt `i`.
Returns whether the boot succeeded together with the calls made. -/
def bootAttempts (env : Env) (iso_path : String) (retry_delay : Nat) :
    Nat → Nat → Bool × List Event
  | 0, _ => (false, [])
  | fuel + 1, i =>
    if env.bootOk i then (true, [Event.bootAttempt iso_path])
    else
      let rest := bootAttempts env iso_path retry_delay fuel (i + 1)
      (rest.1, Event.bootAttempt iso_path :: Event.sleep retry_delay :: rest.2)

def boot_iso_redfish (env : Env) (iso_path : String) (retries : Nat)
    (retry_delay : Nat) : Bool × List Event :=
  bootAttempts env iso_path retry_delay retries 0

/-- The inner `helper` of `_redfish_boot_ipu` (lines 112-121): boot the BMC
from `iso_address` with `retries=5, retry_delay=15`, then SSH to the IMC and
sleep `25*60` seconds (settle interval for the in-image installation). -/
def redfishHelper (env : Env) (node : NodeConfig) (iso_address : String) :
    Outcome × List Event :=
  let b := boot_iso_redfish env iso_address 5 15
  if b.1 then
    let t := b.2 ++ [Event.sshConnect node.bmc node.bmc_user node.bmc_password]
    if env.sshOk node.bmc then (Outcome.ok, t ++ [Event.sleep (25 * 60)])
    else (Outcome.raisedError, t)
  else (Outcome.raisedError, b.2)

/-- `_redfish_boot_ipu` from `src/isoCluster.py` (lines 111-148): stop the
DHCP service (return code not inspected); if the image reference is an HTTP
URL boot from it directly, otherwise require the local file to exist
(missing file: log and `sys.exit(-1)`), prepare the external port, and serve
the file's directory over an ephemeral HTTP server for the duration of the
boot call (the server is released on every exit path of the `with` block). -/
def redfish_boot_ipu (cc : ClustersConfig) (node : NodeConfig) (iso : String)
    (env : Env) : Outcome × List Event :=
  let t0 := [Event.run "systemctl stop dhcpd"]
  if is_http_url iso then
    let r := redfishHelper env node iso
    (r.1, t0 ++ r.2)
  else
    if !(env.isoExists iso) then
      (Outcome.fatal (-1),
        t0 ++ [Event.logError ("ISO file " ++ iso ++ " does not exist, exiting")])
    else
      let serve_path := dirname iso
      let iso_name := basename iso
      let t1 := t0 ++ [Event.prepareExternalPort]
      let lh_ip := env.portToIp
      let t2 := t1 ++ [Event.httpStart serve_path env.httpPort]
      let iso_address :=
        "http://" ++ lh_ip ++ ":" ++ toString env.httpPort ++ "/" ++ iso_name
      let r := redfishHelper env node iso_address
      (r.1, t2 ++ r.2 ++ [Event.httpStop])

/-- `IPUIsoBoot` from `src/isoCluster.py` (lines 151-156): the orchestrator.
Runs the Redfish boot stage, then `assert node.ip is not None`, then network
port preparation, DHCP configuration and connectivity establishment, each
stage a hard prerequisite for the next. -/
def IPUIsoBoot (cc : ClustersConfig) (node : NodeConfig) (iso : String)
    (env : Env) (fs : FS) : Outcome × List Event × FS :=
  let r1 := redfish_boot_ipu cc node iso env
  if r1.1 != Outcome.ok then (r1.1, r1.2, fs)
  else
    match node.ip with
    | none => (Outcome.assertionError, r1.2, fs)
    | some ip =>
      let r2 := configure_iso_network_port env cc.network_api_port ip
      if r2.1 != Outcome.ok then (r2.1, r1.2 ++ r2.2, fs)
      else
        let r3 := configure_dhcpd env node fs
        if r3.1 != Outcome.ok then (r3.1, r1.2 ++ r2.2 ++ r3.2.2, r3.2.1)
        else
          let r4 := enable_acc_connectivity env node
          (r4.1, r1.2 ++ r2.2 ++ r3.2.2 ++ r4.2, r3.2.1)

/-- Fixture node (spec's end-to-end scenario). -/
def node0 : NodeConfig :=
  ⟨"ipu1", "aa:bb:cc:dd:ee:ff", some "192.168.1.50", "10.0.0.5", "admin", "pw"⟩

/-- Fixture node whose management IP is absent. -/
def nodeNoIp : NodeConfig :=
  ⟨"ipu1", "aa:bb:cc:dd:ee:ff", none, "10.0.0.5", "admin", "pw"⟩

def cc0 : ClustersConfig := ⟨"eno1", "eno2"⟩

/-- Fixture environment in which every collaborator succeeds. -/
def envOk : Env :=
  ⟨0, 0, "", 0, 0, fun _ => true, fun _ => true, "192.168.122.1", 8000,
    fun _ => true, true⟩

/-- Environment with a missing local ISO file. -/
def envNoIso : Env :=
  ⟨0, 0, "", 0, 0, fun _ => true, fun _ => false, "192.168.122.1", 8000,
    fun _ => true, true⟩

/-- Environment whose Redfish boot collaborator always fails. -/
def envBootFail : Env :=
  ⟨0, 0, "", 0, 0, fun _ => false, fun _ => true, "192.168.122.1", 8000,
    fun _ => true, true⟩

/-- Environment in which the ACC address never answers the ping probe. -/
def envAccDown : Env :=
  ⟨0, 0, "", 0, 0, fun _ => true, fun _ => true, "192.168.122.1", 8000,
    fun _ => true, false⟩

def isBootAttempt : Event → Bool
  | Event.bootAttempt _ => true
  | _ => false

def isPing : Event → Bool
  | Event.ping _ => true
  | _ => false

/-- `Env` update used to state that a field is never inspected. -/
def setStopRc (env : Env) (rc : Int) : Env :=
  ⟨rc, env.restartDhcpdRc, env.restartDhcpdErr, env.flushRc, env.addRc,
    env.bootOk, env.isoExists, env.portToIp, env.httpPort, env.sshOk,
    env.accReachable⟩

/-- Environment in which `systemctl stop dhcpd` fails. -/
def envStopFail : Env :=
  ⟨1, 0, "", 0, 0, fun _ => true, fun _ => true, "192.168.122.1", 8000,
    fun _ => true, true⟩

theorem render_has_reservation (mac ip name : String) (fs : FS) :
    ConfLine.hostLine ⟨name, mac, ip⟩ ∈
      ((render_dhcpd_conf mac ip name fs).conf.getD []) := by
  unfold render_dhcpd_conf
  cases hc : fs.conf with
  | none =>
    simp [DhcpConfig.write_to_file, DhcpConfig.add_host, dhcp_config_from_file]
  | some lines =>
    by_cases ht : lineHasTag lines.head? = true <;>
      simp [ht, DhcpConfig.write_to_file, DhcpConfig.add_host, dhcp_config_from_file]

theorem render_marker_first (mac ip name : String) (fs : FS) :
    ((render_dhcpd_conf mac ip name fs).conf.getD []).head? = some ConfLine.tag := by
  unfold render_dhcpd_conf
  cases hc : fs.conf with
  | none => simp [DhcpConfig.write_to_file]
  | some lines =>
    by_cases ht : lineHasTag lines.head? = true <;>
      simp [ht, DhcpConfig.write_to_file]

theorem bootAttempts_fail_count (env : Env) (iso : String) (d : Nat)
    (hfail : ∀ i, env.bootOk i = false) :
    ∀ fuel i, (bootAttempts env iso d fuel i).1 = false ∧
      (bootAttempts env iso d fuel i).2.countP isBootAttempt = fuel := by
  intro fuel
  induction fuel with
  | zero => intro i; simp [bootAttempts]
  | succ n ih =>
    intro i
    simp [bootAttempts, hfail, isBootAttempt, ih (i + 1), List.countP_cons]

theorem bootAttempts_mem (env : Env) (iso : String) (d fuel i : Nat) :
    Event.bootAttempt iso ∈ (bootAttempts env iso d (fuel + 1) i).2 := by
  by_cases h : env.bootOk i = true <;> simp [bootAttempts, h]

theorem redfishHelper_mem (env : Env) (node : NodeConfig) (iso : String) :
    Event.bootAttempt iso ∈ (redfishHelper env node iso).2 := by
  have h : Event.bootAttempt iso ∈ (bootAttempts env iso 15 5 0).2 :=
    bootAttempts_mem env iso 15 4 0
  unfold redfishHelper boot_iso_redfish
  by_cases hb : (bootAttempts env iso 15 5 0).1 = true <;>
  by_cases hs : env.sshOk node.bmc = true <;>
    simp [hb, hs, List.mem_append, h]

theorem redfishHelper_ok_trace (env : Env) (node : NodeConfig) (iso : String)
    (h : (redfishHelper env node iso).1 = Outcome.ok) :
    Event.sleep (25 * 60) ∈ (redfishHelper env node iso).2 ∧
    Event.bootAttempt iso ∈ (redfishHelper env node iso).2 := by
  have hm := redfishHelper_mem env node iso
  unfold redfishHelper at h hm ⊢
  unfold boot_iso_redfish at h hm ⊢
  by_cases hb : (bootAttempts env iso 15 5 0).1 = true <;>
  by_cases hs : env.sshOk node.bmc = true <;>
    simp [hb, hs, List.mem_append] at h hm ⊢ <;> simp [hm]

theorem redfish_ok_trace (cc : ClustersConfig) (node : NodeConfig) (iso : String)
    (env : Env) (h : (redfish_boot_ipu cc node iso env).1 = Outcome.ok) :
    Event.sleep (25 * 60) ∈ (redfish_boot_ipu cc node iso env).2 ∧
    ∃ a, Event.bootAttempt a ∈ (redfish_boot_ipu cc node iso env).2 := by
  unfold redfish_boot_ipu at h ⊢
  by_cases hurl : is_http_url iso = true
  · simp [hurl] at h ⊢
    obtain ⟨h1, h2⟩ := redfishHelper_ok_trace env node iso h
    exact ⟨h1, iso, h2⟩
  · simp [hurl] at h ⊢
    by_cases hex : env.isoExists iso = true
    · simp [hex] at h ⊢
      obtain ⟨h1, h2⟩ := redfishHelper_ok_trace env node _ h
      exact ⟨h1, _, h2⟩
    · simp [hex] at h

/-- C4: an image reference is classified as a remote address if and only if
it parses as a URL with both a non-empty scheme and a non-empty network
location; every other string is classified as a local path. -/
theorem image_classification_iff (s : String) :
    (classifyImage s = ImageRef.remote s ↔
      ∃ r, urlparse s = Except.ok r ∧ r.scheme ≠ "" ∧ r.netloc ≠ "") ∧
    (classifyImage s = ImageRef.localPath s ↔
      ¬ ∃ r, urlparse s = Except.ok r ∧ r.scheme ≠ "" ∧ r.netloc ≠ "") := by
  cases h : urlparse s with
  | ok r =>
    by_cases hs : r.scheme = "" <;> by_cases hn : r.netloc = "" <;>
      simp [classifyImage, is_http_url, h, hs, hn]
  | error e =>
    simp [classifyImage, is_http_url, h]

/-- Witness for C4 at a concrete URL and a concrete non-URL. -/
theorem image_classification_iff_witness :
    classifyImage "http://example.com/x.iso" =
      ImageRef.remote "http://example.com/x.iso" ∧
    ¬ ∃ r, urlparse "/tmp/x.iso" = Except.ok r ∧ r.scheme ≠ "" ∧ r.netloc ≠ "" :=
  ⟨(image_classification_iff "http://example.com/x.iso").1.mpr
      ⟨⟨"http", "example.com"⟩, rfl, by decide, by decide⟩,
   (image_classification_iff "/tmp/x.iso").2.mp rfl⟩

/-- C6: the network-port-preparation step first flushes all addresses on the
cluster-facing interface and then assigns the /24 subnet-range start address
computed from the node IP; for `192.168.1.50` the assigned start is
`192.168.1.0`, and for `10.0.0.200` it is `10.0.0.0`. -/
theorem network_port_flush_then_assign (env : Env) (api_port : String)
    (ip : String) (hf : env.flushRc = 0) (ha : env.addRc = 0) :
    (configure_iso_network_port env api_port ip).2 =
      [Event.runOrDie ("ip addr flush dev " ++ api_port),
       Event.runOrDie ("ip addr add " ++ (get_subnet_range ip "255.255.255.0").1 ++
         "/24 dev " ++ api_port)] ∧
    (get_subnet_range "192.168.1.50" "255.255.255.0").1 = "192.168.1.0" ∧
    (get_subnet_range "10.0.0.200" "255.255.255.0").1 = "10.0.0.0" := by
  refine ⟨?_, by decide, by decide⟩
  simp [configure_iso_network_port, hf, ha]

/-- Witness for C6 at the spec's concrete inputs. -/
theorem network_port_flush_then_assign_witness :
    (configure_iso_network_port envOk "eno1" "192.168.1.50").2 =
      [Event.runOrDie ("ip addr flush dev " ++ "eno1"),
       Event.runOrDie ("ip addr add " ++
         (get_subnet_range "192.168.1.50" "255.255.255.0").1 ++ "/24 dev " ++ "eno1")] ∧
    (get_subnet_range "192.168.1.50" "255.255.255.0").1 = "192.168.1.0" ∧
    (get_subnet_range "10.0.0.200" "255.255.255.0").1 = "10.0.0.0" :=
  network_port_flush_then_assign envOk "eno1" "192.168.1.50" rfl rfl

/-- C7: a non-zero exit from `systemctl restart dhcpd` is fatal, the
captured error output is reported, and the configuration file keeps the
already-written reservation (no rollback). -/
theorem dhcpd_restart_failure_fatal_no_rollback (env : Env) (node : NodeConfig)
    (fs : FS) (h : env.restartDhcpdRc ≠ 0) :
    (configure_dhcpd env node fs).1 = Outcome.fatal (-1) ∧
    Event.logError ("Failed to restart dhcpd with err: " ++ env.restartDhcpdErr) ∈
      (configure_dhcpd env node fs).2.2 ∧
    (configure_dhcpd env node fs).2.1 =
      render_dhcpd_conf node.mac (pyStr node.ip) node.name fs ∧
    ConfLine.hostLine ⟨node.name, node.mac, pyStr node.ip⟩ ∈
      ((configure_dhcpd env node fs).2.1.conf.getD []) := by
  have hr := render_has_reservation node.mac (pyStr node.ip) node.name fs
  simp [configure_dhcpd, h, hr]

/-- Witness for C7: restart fails with a captured error message. -/
theorem dhcpd_restart_failure_fatal_no_rollback_witness :
    (configure_dhcpd ⟨0, 1, "unit failed", 0, 0, fun _ => true, fun _ => true,
        "192.168.122.1", 8000, fun _ => true, true⟩ node0 ⟨none, none⟩).1 =
      Outcome.fatal (-1) ∧
    Event.logError ("Failed to restart dhcpd with err: " ++ "unit failed") ∈
      (configure_dhcpd ⟨0, 1, "unit failed", 0, 0, fun _ => true, fun _ => true,
        "192.168.122.1", 8000, fun _ => true, true⟩ node0 ⟨none, none⟩).2.2 :=
  ⟨(dhcpd_restart_failure_fatal_no_rollback _ node0 ⟨none, none⟩ (by decide)).1,
   (dhcpd_restart_failure_fatal_no_rollback _ node0 ⟨none, none⟩ (by decide)).2.1⟩

/-- C8: after a successful DHCP-lease-manager run for node `N` with MAC `M`
and IP `I`, the configuration file contains the host reservation
`(N, M, I)` and the ownership marker is the first line. -/
theorem dhcp_reservation_and_marker (env : Env) (node : NodeConfig) (fs : FS)
    (h : env.restartDhcpdRc = 0) :
    (configure_dhcpd env node fs).1 = Outcome.ok ∧
    ConfLine.hostLine ⟨node.name, node.mac, pyStr node.ip⟩ ∈
      ((configure_dhcpd env node fs).2.1.conf.getD []) ∧
    ((configure_dhcpd env node fs).2.1.conf.getD []).head? = some ConfLine.tag := by
  have hr := render_has_reservation node.mac (pyStr node.ip) node.name fs
  have hm := render_marker_first node.mac (pyStr node.ip) node.name fs
  simp [configure_dhcpd, h, hr, hm]

/-- Witness for C8 at the spec's end-to-end node on an empty state. -/
theorem dhcp_reservation_and_marker_witness :
    (configure_dhcpd envOk node0 ⟨none, none⟩).1 = Outcome.ok ∧
    ConfLine.hostLine ⟨"ipu1", "aa:bb:cc:dd:ee:ff", "192.168.1.50"⟩ ∈
      ((configure_dhcpd envOk node0 ⟨none, none⟩).2.1.conf.getD []) ∧
    ((configure_dhcpd envOk node0 ⟨none, none⟩).2.1.conf.getD []).head? =
      some ConfLine.tag :=
  dhcp_reservation_and_marker envOk node0 ⟨none, none⟩ rfl

/-- C3: starting from an existing configuration file without the ownership
marker, the first run moves it to the backup location, and a second
successful run (for any node) leaves the backup untouched: exactly one
backup is created across the two runs. -/
theorem dhcp_backup_at_most_once (m1 i1 n1 m2 i2 n2 : String)
    (orig : List ConfLine) (b0 : Option (List ConfLine))
    (h : lineHasTag orig.head? = false) :
    (render_dhcpd_conf m1 i1 n1 ⟨some orig, b0⟩).backup = some orig ∧
    (render_dhcpd_conf m2 i2 n2 (render_dhcpd_conf m1 i1 n1 ⟨some orig, b0⟩)).backup =
      some orig := by
  simp [render_dhcpd_conf, h, dhcp_config_from_file, DhcpConfig.add_host,
    DhcpConfig.write_to_file, show lineHasTag (some ConfLine.tag) = true from rfl]

/-- Witness for C3: an unmanaged one-line file, two runs for two nodes. -/
theorem dhcp_backup_at_most_once_witness :
    (render_dhcpd_conf "aa:bb:cc:dd:ee:ff" "192.168.1.50" "ipu1"
        ⟨some [ConfLine.other "subnet 10.0.0.0"], none⟩).backup =
      some [ConfLine.other "subnet 10.0.0.0"] ∧
    (render_dhcpd_conf "11:22:33:44:55:66" "192.168.1.51" "ipu2"
        (render_dhcpd_conf "aa:bb:cc:dd:ee:ff" "192.168.1.50" "ipu1"
          ⟨some [ConfLine.other "subnet 10.0.0.0"], none⟩)).backup =
      some [ConfLine.other "subnet 10.0.0.0"] :=
  dhcp_backup_at_most_once "aa:bb:cc:dd:ee:ff" "192.168.1.50" "ipu1"
    "11:22:33:44:55:66" "192.168.1.51" "ipu2"
    [ConfLine.other "subnet 10.0.0.0"] none rfl

/-- C5: the boot-from-image call is issued with `retries=5, retry_delay=15`;
against a collaborator that always fails it is attempted exactly 5 times
with no further calls after exhaustion, and exhaustion surfaces to the
caller as a fatal (raised) failure. -/
theorem redfish_boot_retries_five (cc : ClustersConfig) (node : NodeConfig)
    (iso : String) (env : Env) (hurl : is_http_url iso = true)
    (hfail : ∀ i, env.bootOk i = false) :
    (redfish_boot_ipu cc node iso env).1 = Outcome.raisedError ∧
    (redfish_boot_ipu cc node iso env).2.countP isBootAttempt = 5 := by
  obtain ⟨hb1, hb2⟩ := bootAttempts_fail_count env iso 15 hfail 5 0
  simp [redfish_boot_ipu, hurl, redfishHelper, boot_iso_redfish, hb1, hb2,
    List.countP_append, List.countP_cons, isBootAttempt]

/-- Witness for C5: an always-failing boot collaborator on a URL image. -/
theorem redfish_boot_retries_five_witness :
    (redfish_boot_ipu cc0 node0 "http://example.com/x.iso" envBootFail).1 =
      Outcome.raisedError ∧
    (redfish_boot_ipu cc0 node0 "http://example.com/x.iso" envBootFail).2.countP
      isBootAttempt = 5 :=
  redfish_boot_retries_five cc0 node0 "http://example.com/x.iso" envBootFail
    (by decide) (fun i => rfl)

/-- C10: the return code of `systemctl stop dhcpd` is never inspected — the
stage's outcome and trace are identical for every value of that return code,
and with a failing stop the boot request is still issued. -/
theorem stop_dhcpd_failure_ignored (cc : ClustersConfig) (node : NodeConfig)
    (iso : String) (env : Env) (rc : Int) (hurl : is_http_url iso = true)
    (hstop : env.stopDhcpdRc ≠ 0) :
    redfish_boot_ipu cc node iso env = redfish_boot_ipu cc node iso (setStopRc env rc) ∧
    Event.bootAttempt iso ∈ (redfish_boot_ipu cc node iso env).2 := by
  refine ⟨rfl, ?_⟩
  have h := redfishHelper_mem env node iso
  simp [redfish_boot_ipu, hurl, List.mem_append, h]

/-- Witness for C10: the stop command fails (`rc = 1`), boot still issued. -/
theorem stop_dhcpd_failure_ignored_witness :
    redfish_boot_ipu cc0 node0 "http://example.com/x.iso" envStopFail =
      redfish_boot_ipu cc0 node0 "http://example.com/x.iso" (setStopRc envStopFail 0) ∧
    Event.bootAttempt "http://example.com/x.iso" ∈
      (redfish_boot_ipu cc0 node0 "http://example.com/x.iso" envStopFail).2 :=
  stop_dhcpd_failure_ignored cc0 node0 "http://example.com/x.iso" envStopFail 0
    (by decide) (by decide)

/-- Counterexample to C1 as stated: for a local image path that does not
exist, the run does abort with a fatal validation error, but the
`systemctl stop dhcpd` command has already been issued before the check, so
the abort does not happen before the DHCP service is stopped. -/
theorem missing_iso_claim_counterexample :
    (redfish_boot_ipu cc0 node0 "/tmp/missing.iso" envNoIso).1 = Outcome.fatal (-1) ∧
    Event.run "systemctl stop dhcpd" ∈
      (redfish_boot_ipu cc0 node0 "/tmp/missing.iso" envNoIso).2 := by
  decide

/-- C1 (amended): for a local image path that does not exist, the run aborts
with a fatal validation error before any boot request is issued, before the
external port is prepared, before the ephemeral image server is started and
before any remote session is opened — but after the DHCP-service stop
command has been issued. -/
theorem missing_iso_aborts_before_boot (cc : ClustersConfig) (node : NodeConfig)
    (iso : String) (env : Env) (hurl : is_http_url iso = false)
    (hex : env.isoExists iso = false) :
    (redfish_boot_ipu cc node iso env).1 = Outcome.fatal (-1) ∧
    (∀ e ∈ (redfish_boot_ipu cc node iso env).2,
      (∀ a, e ≠ Event.bootAttempt a) ∧ e ≠ Event.prepareExternalPort ∧
      (∀ d p, e ≠ Event.httpStart d p) ∧ (∀ h u pw, e ≠ Event.sshConnect h u pw)) ∧
    Event.run "systemctl stop dhcpd" ∈ (redfish_boot_ipu cc node iso env).2 := by
  simp [redfish_boot_ipu, hurl, hex]

/-- Witness for C1 (amended) at a concrete missing path. -/
theorem missing_iso_aborts_before_boot_witness :
    (redfish_boot_ipu cc0 node0 "/tmp/missing.iso" envNoIso).1 = Outcome.fatal (-1) ∧
    (∀ e ∈ (redfish_boot_ipu cc0 node0 "/tmp/missing.iso" envNoIso).2,
      (∀ a, e ≠ Event.bootAttempt a) ∧ e ≠ Event.prepareExternalPort ∧
      (∀ d p, e ≠ Event.httpStart d p) ∧ (∀ h u pw, e ≠ Event.sshConnect h u pw)) ∧
    Event.run "systemctl stop dhcpd" ∈
      (redfish_boot_ipu cc0 node0 "/tmp/missing.iso" envNoIso).2 :=
  missing_iso_aborts_before_boot cc0 node0 "/tmp/missing.iso" envNoIso
    (by decide) rfl

/-- C2 (code evaluated at the failing input): with an accelerator complex
that never becomes reachable, `enable_acc_connectivity` issues the
reachability probe exactly once, does not reach any fatal terminal state
(it returns normally), and proceeds to open an SSH session to the
unreachable accelerator address — the bounded-retry-then-fatal behaviour
the spec intends is disabled in the source (commented out). -/
theorem acc_unreachable_probe_once_still_connects :
    (enable_acc_connectivity envAccDown node0).1 = Outcome.ok ∧
    (enable_acc_connectivity envAccDown node0).2.countP isPing = 1 ∧
    Event.sshConnect "192.168.1.50" "root" "redhat" ∈
      (enable_acc_connectivity envAccDown node0).2 := by
  decide

/-- C9: when the node's management IP is absent, the orchestrator fails with
an assertion error only after the remote boot stage has fully completed —
the boot request and the 25-minute post-install settle wait are already in
the trace when the assertion fires. -/
theorem ip_asserted_after_boot_stage (cc : ClustersConfig) (node : NodeConfig)
    (iso : String) (env : Env) (fs : FS) (hip : node.ip = none)
    (hok : (redfish_boot_ipu cc node iso env).1 = Outcome.ok) :
    (IPUIsoBoot cc node iso env fs).1 = Outcome.assertionError ∧
    Event.sleep (25 * 60) ∈ (IPUIsoBoot cc node iso env fs).2.1 ∧
    ∃ a, Event.bootAttempt a ∈ (IPUIsoBoot cc node iso env fs).2.1 := by
  obtain ⟨h1, h2⟩ := redfish_ok_trace cc node iso env hok
  simp [IPUIsoBoot, hok, hip]
  exact ⟨h1, h2⟩

/-- Witness for C9: a node without an IP, every collaborator succeeding. -/
theorem ip_asserted_after_boot_stage_witness :
    (IPUIsoBoot cc0 nodeNoIp "http://example.com/x.iso" envOk ⟨none, none⟩).1 =
      Outcome.assertionError ∧
    Event.sleep (25 * 60) ∈
      (IPUIsoBoot cc0 nodeNoIp "http://example.com/x.iso" envOk ⟨none, none⟩).2.1 ∧
    ∃ a, Event.bootAttempt a ∈
      (IPUIsoBoot cc0 nodeNoIp "http://example.com/x.iso" envOk ⟨none, none⟩).2.1 :=
  ip_asserted_after_boot_stage cc0 nodeNoIp "http://example.com/x.iso" envOk
    ⟨none, none⟩ rfl (by decide)
